import Mathlib

/-!
Verification of the agent.py generate-execute-verify-retry loop.

The Python source is shallowly embedded: pandas DataFrames become a typed
columnar value, Python exceptions become `Except String`, the file system and
the external completion service become explicit environment records, and the
`for attempt in range(1, 4)` loop becomes a fuel-indexed recursion with fuel 3.
-/

namespace BankAgent

/-- A scalar cell value of a table, tagged with its runtime type, modelling the
dtype-sensitive values pandas stores in a DataFrame cell. -/
inductive PyValue where
  | pyStr (s : String)
  | pyInt (n : Int)
  | pyFloat (q : Rat)
  | pyNone
deriving DecidableEq

/-- A pandas DataFrame modelled as an ordered list of column names together
with its rows of typed cells (the spec's "typed columnar value"). -/
structure DataFrame where
  columns : List String
  rows : List (List PyValue)
deriving DecidableEq

/-- The pandas `df.shape` pair: (number of rows, number of columns). -/
def DataFrame.shape (df : DataFrame) : Nat × Nat :=
  (df.rows.length, df.columns.length)

/-- The pandas `DataFrame.equals` check as used by `test_parser`: same column
names in the same order and the same typed cell value in every position. -/
def DataFrame.equals (a b : DataFrame) : Bool :=
  if a.columns = b.columns ∧ a.rows = b.rows then true else false

/-- A loaded candidate module.  `parseFn = none` models a module that does not
define a callable attribute named `parse`; `some f` is the entry point, which
either returns a DataFrame or raises (`Except.error` carries the message). -/
structure PyModule where
  parseFn : Option (String → Except String DataFrame)

/-- The ambient file system and interpreter state `test_parser` touches:
`importAt` models `import_parser` (executing the module body at a path, which
can raise at load time), `readCsv` models `pd.read_csv` on the expected table
path. -/
structure PyEnv where
  importAt : String → Except String PyModule
  readCsv : String → Except String DataFrame

/-- Embedding of `import_parser`: load the module at `parser_path`, an error
being a load-time exception (syntax error, import-time failure). -/
def importModule (env : PyEnv) (parserPath : String) : Except String PyModule :=
  env.importAt parserPath

/-- Model of Python's `traceback.format_exc()` for an exception message. -/
def format_exc (e : String) : String :=
  "Traceback (most recent call last):\n" ++ e

/-- The diagnostic `test_parser` builds in its `except` branch. -/
def excDiag (e : String) : String :=
  "Exception while running parse(): " ++ e ++ "\n" ++ format_exc e

/-- The exception message Python raises for `mod.parse` when the module has no
`parse` attribute. -/
def noParseAttr : String :=
  "AttributeError: module has no attribute parse"

/-- Rendering of a shape pair, as Python prints a 2-tuple. -/
def shapeStr (p : Nat × Nat) : String :=
  "(" ++ toString p.1 ++ ", " ++ toString p.2 ++ ")"

/-- The mismatch diagnostic of `test_parser`. -/
def mismatchDiag (dfTrue dfPred : DataFrame) : String :=
  "❌ Mismatch in DataFrames: expected " ++ shapeStr dfTrue.shape ++
    ", got " ++ shapeStr dfPred.shape

/-- Embedding of `test_parser`: import the candidate module, call its `parse`
entry point on the pdf path, read the expected CSV, and compare with
`DataFrame.equals`; every exception raised inside the `try` block is caught
and turned into a `(False, diagnostic-with-trace)` pair. -/
def testParser (env : PyEnv) (parserPath pdf csv : String) : Bool × String :=
  match importModule env parserPath with
  | .error e => (false, excDiag e)
  | .ok md =>
    match md.parseFn with
    | none => (false, excDiag noParseAttr)
    | some f =>
      match f pdf with
      | .error e => (false, excDiag e)
      | .ok dfPred =>
        match env.readCsv csv with
        | .error e => (false, excDiag e)
        | .ok dfTrue =>
          if dfPred.equals dfTrue then
            (true, "✅ DataFrame.equals -> True")
          else
            (false, mismatchDiag dfTrue dfPred)

/-- Running `test_parser` twice in a row on the same saved module and fixture,
as the idempotence property of the spec describes. -/
def verifyTwice (env : PyEnv) (parserPath pdf csv : String) :
    (Bool × String) × (Bool × String) :=
  (testParser env parserPath pdf csv, testParser env parserPath pdf csv)

/-- Embedding of `find_data_paths`: given the glob results for `*.pdf` and
`*.csv` in the target's data directory (in the enumeration order the file
system provides), fail when either list is empty, otherwise return the first
match of each type.  `Except.error` models the raised `FileNotFoundError`
(the spec's `MissingFixtureError`). -/
def find_data_paths (target : String) (pdfs csvs : List String) :
    Except String (String × String) :=
  match pdfs, csvs with
  | p :: _, c :: _ => .ok (p, c)
  | _, _ => .error ("Missing PDF or CSV in data/" ++ target)

/-- The backtick character, written by code point to keep it out of the
source text. -/
def btick : Char := Char.ofNat 96

/-- The three-backtick fence marker of a Markdown code block. -/
def fenceTag : List Char := [btick, btick, btick]

/-- The characters of the optional `python` language tag. -/
def pythonTag : List Char := ['p', 'y', 't', 'h', 'o', 'n']

/-- The lazy `(.*?)` of the fence regex followed by a closing fence: take
characters up to the first occurrence of a three-backtick marker, failing when
no closing fence exists. -/
def takeUntilFence : List Char → Option (List Char)
  | [] => none
  | c :: rest =>
    if (c :: rest).take 3 = fenceTag then some []
    else
      match takeUntilFence rest with
      | some tail => some (c :: tail)
      | none => none

/-- Matching the regex prefix three backticks, then `(?:python)?`, then a
newline, at the head of the character list; returns the characters after the
opener on success.  The greedy optional group tries `python` first and falls
back to the empty match, exactly as the regex engine does. -/
def matchOpenAt (cs : List Char) : Option (List Char) :=
  if cs.take 3 = fenceTag then
    let rest := cs.drop 3
    if rest.take 7 = pythonTag ++ ['\n'] then some (rest.drop 7)
    else if rest.take 1 = ['\n'] then some (rest.drop 1)
    else none
  else none

/-- Model of Python's backtracking search for the fence pattern: try each start
position left to right, and at each matching opener take the lazily shortest
interior up to a closing fence. -/
def findBlock : List Char → Option (List Char)
  | [] => none
  | c :: rest =>
    match matchOpenAt (c :: rest) with
    | some afterOpen =>
      match takeUntilFence afterOpen with
      | some interior => some interior
      | none => findBlock rest
    | none => findBlock rest

/-- Embedding of the cleanup step of `save_parser`: the interior of the first
fenced code block when `re.search` finds one, the raw text otherwise. -/
def extract_code (code : String) : String :=
  match findBlock code.data with
  | some interior => String.mk interior
  | none => code

/-- The whitespace characters Python's `str.strip()` removes. -/
def pySpace (c : Char) : Bool :=
  c == ' ' || c == '\t' || c == '\n' || c == '\r' ||
    c == Char.ofNat 11 || c == Char.ofNat 12

/-- Strip `pySpace` characters from both ends of a character list. -/
def stripList (l : List Char) : List Char :=
  ((l.dropWhile pySpace).reverse.dropWhile pySpace).reverse

/-- Python's `str.strip()`. -/
def pyStrip (s : String) : String :=
  String.mk (stripList s.data)

/-- The exact text `save_parser` persists for a raw model response: the
extracted code, stripped on both ends, with one newline appended
(`clean.strip() + "\n"`). -/
def savedText (code : String) : String :=
  pyStrip (extract_code code) ++ "\n"

/-- Embedding of `run_pytest`: run the subprocess and return its exit code;
a failure to launch (`FileNotFoundError`) is caught and reported as 1. -/
def run_pytest (spawn : Except Unit Int) : Int :=
  match spawn with
  | .ok rc => rc
  | .error _ => 1

/-- The outcome of one `ask_llm_for_parser` call: the raw completion text, or
an exception raised by the completion service (the spec's
`GenerationServiceError`). -/
inductive GenResult where
  | ok (raw : String)
  | raised (msg : String)
deriving DecidableEq

/-- The environment of the main loop: `gen` models `ask_llm_for_parser` as a
function of the attempt number and the `error_summary` fed back to it;
`verify` models writing the cleaned text to the parser path and running
`test_parser` on it, as a function of the saved source text; `pytestSpawn`
models the pytest subprocess launched after success. -/
structure RunEnv where
  gen : Nat → String → GenResult
  verify : String → Bool × String
  pytestSpawn : Except Unit Int

/-- The record of one loop iteration: either the generation call raised, or a
verification ran with the given result and diagnostic. -/
inductive AttemptRec where
  | genRaised (msg : String)
  | verified (ok : Bool) (msg : String)
deriving DecidableEq

/-- The terminal state of a run: the spec's `Success` and `Exhausted`, plus
`aborted` for an exception that escapes the loop uncaught. -/
inductive Outcome where
  | success
  | exhausted
  | aborted (msg : String)
deriving DecidableEq

/-- What a whole run of `main`'s loop did: its terminal state, the attempt
records in chronological order (one generation request each), how many times
the pytest subprocess ran and the exit code it reported. -/
structure RunTrace where
  outcome : Outcome
  attempts : List AttemptRec
  pytestCalls : Nat
  pytestReported : Option Int
deriving DecidableEq

/-- The `for attempt in range(1, 4)` loop of `main`, with `fuel` the number of
iterations remaining, `n` the current attempt number and `lastErr` the
`error_summary` carried between iterations.  A generation exception is not
inside any `try` block in the source, so it ends the run at once. -/
def attemptLoopGo (env : RunEnv) : Nat → Nat → String → Outcome × List AttemptRec
  | 0, _, _ => (.exhausted, [])
  | fuel + 1, n, lastErr =>
    match env.gen n lastErr with
    | .raised m => (.aborted m, [.genRaised m])
    | .ok raw =>
      let r := env.verify (savedText raw)
      if r.1 then (.success, [.verified true r.2])
      else
        let rest := attemptLoopGo env fuel (n + 1) r.2
        (rest.1, .verified false r.2 :: rest.2)

/-- The whole retry orchestration of `main` after fixture resolution: run the
three-iteration loop, and on success (`if success:` in the source) run pytest
once, its exit code reported but never consulted. -/
def runAgent (env : RunEnv) : RunTrace :=
  let r := attemptLoopGo env 3 1 ""
  if r.1 = .success then ⟨.success, r.2, 1, some (run_pytest env.pytestSpawn)⟩
  else ⟨r.1, r.2, 0, none⟩

/-- Python truthiness of `os.getenv`'s result: `None` and the empty string are
falsy, everything else truthy. -/
def pyTruthy : Option String → Bool
  | none => false
  | some s => if s = "" then false else true

/-- The fatal diagnostic printed when the credential check fails. -/
def missingKeyMsg : String :=
  "❌ GROQ_API_KEY missing. Please set it via environment or .env file."

/-- The whole-process environment: the value of the `grok_api_key` environment
variable, the glob results in the target's data directory, and the loop
environment. -/
structure ProcEnv where
  grokApiKey : Option String
  pdfFiles : List String
  csvFiles : List String
  run : RunEnv

/-- The observable behaviour of one process invocation: a fatal exit (code and
message) if any, how many fixture-directory lookups ran, and the loop trace
when the loop was reached. -/
structure ProcTrace where
  fatalExit : Option (Nat × String)
  fixtureLookups : Nat
  runTrace : Option RunTrace

/-- The process from startup: the module-level credential check runs first and
exits with code 1 before anything else; only then does `main` resolve the
fixture paths (an uncaught `FileNotFoundError` also terminates non-zero) and
enter the attempt loop. -/
def runProcess (target : String) (p : ProcEnv) : ProcTrace :=
  if pyTruthy p.grokApiKey = false then
    ⟨some (1, missingKeyMsg), 0, none⟩
  else
    match find_data_paths target p.pdfFiles p.csvFiles with
    | .error e => ⟨some (1, e), 1, none⟩
    | .ok _ => ⟨none, 1, some (runAgent p.run)⟩

/-! ### Helper lemmas -/

theorem equals_eq_true_iff (a b : DataFrame) : a.equals b = true ↔ a = b := by
  cases a with
  | mk ac ar =>
    cases b with
    | mk bc br =>
      unfold DataFrame.equals
      constructor
      · intro h
        split at h
        · rename_i hp
          obtain ⟨h1, h2⟩ := hp
          simp only at h1 h2
          rw [h1, h2]
        · cases h
      · intro h
        cases h
        simp

/-- The error cases the `try` block of `test_parser` can hit: a load-time
exception, a missing `parse` attribute, an exception from the entry point, or
an exception while reading the expected table. -/
def RaisesDuring (env : PyEnv) (parserPath pdf csv : String) : Prop :=
  (∃ e, env.importAt parserPath = .error e)
  ∨ (∃ md, env.importAt parserPath = .ok md ∧ md.parseFn = none)
  ∨ (∃ md f e, env.importAt parserPath = .ok md ∧ md.parseFn = some f ∧
      f pdf = .error e)
  ∨ (∃ md f df e, env.importAt parserPath = .ok md ∧ md.parseFn = some f ∧
      f pdf = .ok df ∧ env.readCsv csv = .error e)

/-! ### Claims about the Verifier and the Fixture Locator -/

/-- Claim C2: for every candidate module and fixture whose loading, entry-point
call and table read all succeed, `test_parser` returns success exactly when the
produced table equals the expected table cell-for-cell, column-for-column,
row-for-row including value types; any difference yields the failure pair with
the mismatch diagnostic. -/
theorem C2_exact_match (env : PyEnv) (parserPath pdf csv : String)
    (md : PyModule) (f : String → Except String DataFrame)
    (dfPred dfTrue : DataFrame)
    (h1 : env.importAt parserPath = .ok md)
    (h2 : md.parseFn = some f)
    (h3 : f pdf = .ok dfPred)
    (h4 : env.readCsv csv = .ok dfTrue) :
    ((testParser env parserPath pdf csv).1 = true ↔ dfPred = dfTrue)
    ∧ (dfPred ≠ dfTrue →
        testParser env parserPath pdf csv = (false, mismatchDiag dfTrue dfPred)) := by
  unfold testParser importModule
  simp only [h1, h2, h3, h4]
  by_cases h : dfPred = dfTrue
  · subst h
    have he : dfPred.equals dfPred = true := (equals_eq_true_iff _ _).mpr rfl
    simp [he]
  · have he : dfPred.equals dfTrue = false := by
      cases hb : dfPred.equals dfTrue
      · rfl
      · exact absurd ((equals_eq_true_iff _ _).mp hb) h
    simp [he, h]

/-- Claim C5: `test_parser` never raises outward (it is a total function into
result pairs), and any error raised while loading the module, invoking its
entry point, or reading the expected table is caught and reported as a failure
whose diagnostic embeds a formatted stack trace. -/
theorem C5_never_raises (env : PyEnv) (parserPath pdf csv : String)
    (h : RaisesDuring env parserPath pdf csv) :
    (testParser env parserPath pdf csv).1 = false
    ∧ ∃ e, (testParser env parserPath pdf csv).2 =
        "Exception while running parse(): " ++ e ++ "\n" ++ format_exc e := by
  unfold testParser importModule
  rcases h with ⟨e, he⟩ | ⟨md, hmd, hp⟩ | ⟨md, f, e, hmd, hp, hf⟩ |
    ⟨md, f, df, e, hmd, hp, hf, hr⟩
  · simp only [he]
    exact ⟨trivial, e, rfl⟩
  · simp only [hmd, hp]
    exact ⟨trivial, noParseAttr, rfl⟩
  · simp only [hmd, hp, hf]
    exact ⟨trivial, e, rfl⟩
  · simp only [hmd, hp, hf, hr]
    exact ⟨trivial, e, rfl⟩

/-- Claim C7: when the fixture directory holds at least one pdf and one csv,
`find_data_paths` returns exactly the first match of each extension without
raising; when either is absent it fails with the missing-fixture error. -/
theorem C7_fixture_locator (target : String) (pdfs csvs : List String) :
    (pdfs ≠ [] → csvs ≠ [] →
      ∃ p ps c cs, pdfs = p :: ps ∧ csvs = c :: cs ∧
        find_data_paths target pdfs csvs = .ok (p, c))
    ∧ ((pdfs = [] ∨ csvs = []) →
      ∃ e, find_data_paths target pdfs csvs = .error e) := by
  constructor
  · intro hp hc
    match pdfs, csvs with
    | p :: ps, c :: cs => exact ⟨p, ps, c, cs, rfl, rfl, rfl⟩
    | [], _ => exact absurd rfl hp
    | _ :: _, [] => exact absurd rfl hc
  · intro h
    rcases h with h | h
    · subst h
      exact ⟨"Missing PDF or CSV in data/" ++ target, rfl⟩
    · subst h
      match pdfs with
      | [] => exact ⟨"Missing PDF or CSV in data/" ++ target, rfl⟩
      | _ :: _ => exact ⟨"Missing PDF or CSV in data/" ++ target, rfl⟩

/-- Claim C9: re-verifying the same saved candidate module against the same
document and expected-table paths twice yields the same boolean result both
times; the embedded verification reads only the unchanged module file and
fixture, captured by the fixed environment. -/
theorem C9_idempotent (env : PyEnv) (parserPath pdf csv : String) :
    (verifyTwice env parserPath pdf csv).1.1 =
      (verifyTwice env parserPath pdf csv).2.1 := rfl

/-- Claim C10: a candidate module that loads but defines no callable `parse`
entry point, and likewise a failure to read the expected table, still produce
a `(false, diagnostic)` pair from `test_parser` instead of a propagated error,
so a contract-violating candidate counts as an ordinary attempt failure. -/
theorem C10_contract_violation (env : PyEnv) (parserPath pdf csv : String) :
    (∀ md, env.importAt parserPath = .ok md → md.parseFn = none →
      testParser env parserPath pdf csv = (false, excDiag noParseAttr))
    ∧ (∀ md f df e, env.importAt parserPath = .ok md → md.parseFn = some f →
        f pdf = .ok df → env.readCsv csv = .error e →
        testParser env parserPath pdf csv = (false, excDiag e)) := by
  constructor
  · intro md hmd hp
    unfold testParser importModule
    simp only [hmd, hp]
  · intro md f df e hmd hp hf hr
    unfold testParser importModule
    simp only [hmd, hp, hf, hr]

/-! ### Loop invariants of the Retry Orchestrator -/

theorem loopGo_step_raised (env : RunEnv) (k n : Nat) (e m : String)
    (hg : env.gen n e = .raised m) :
    attemptLoopGo env (k + 1) n e = (.aborted m, [.genRaised m]) := by
  unfold attemptLoopGo
  simp [hg]

theorem loopGo_step_pass (env : RunEnv) (k n : Nat) (e raw : String)
    (hg : env.gen n e = .ok raw)
    (hv : (env.verify (savedText raw)).1 = true) :
    attemptLoopGo env (k + 1) n e =
      (.success, [.verified true (env.verify (savedText raw)).2]) := by
  unfold attemptLoopGo
  simp [hg, hv]

theorem loopGo_step_fail (env : RunEnv) (k n : Nat) (e raw : String)
    (hg : env.gen n e = .ok raw)
    (hv : (env.verify (savedText raw)).1 = false) :
    attemptLoopGo env (k + 1) n e =
      ((attemptLoopGo env k (n + 1) (env.verify (savedText raw)).2).1,
        .verified false (env.verify (savedText raw)).2
          :: (attemptLoopGo env k (n + 1) (env.verify (savedText raw)).2).2) := by
  simp only [attemptLoopGo]
  simp [hg, hv]

theorem loopGo_length_le (env : RunEnv) :
    ∀ fuel n e, (attemptLoopGo env fuel n e).2.length ≤ fuel := by
  intro fuel
  induction fuel with
  | zero =>
    intro n e
    simp [attemptLoopGo]
  | succ k ih =>
    intro n e
    cases hg : env.gen n e with
    | raised m =>
      rw [loopGo_step_raised env k n e m hg]
      simp
    | ok raw =>
      cases hv : (env.verify (savedText raw)).1 with
      | true =>
        rw [loopGo_step_pass env k n e raw hg hv]
        simp
      | false =>
        rw [loopGo_step_fail env k n e raw hg hv]
        have := ih (n + 1) (env.verify (savedText raw)).2
        simp only [List.length_cons]
        omega

theorem loopGo_earlier_failed (env : RunEnv) :
    ∀ fuel n e, ∀ a ∈ (attemptLoopGo env fuel n e).2.dropLast,
      ∃ m, a = .verified false m := by
  intro fuel
  induction fuel with
  | zero =>
    intro n e
    simp [attemptLoopGo]
  | succ k ih =>
    intro n e
    cases hg : env.gen n e with
    | raised m =>
      rw [loopGo_step_raised env k n e m hg]
      simp
    | ok raw =>
      cases hv : (env.verify (savedText raw)).1 with
      | true =>
        rw [loopGo_step_pass env k n e raw hg hv]
        simp
      | false =>
        rw [loopGo_step_fail env k n e raw hg hv]
        intro a ha
        cases hrest : (attemptLoopGo env k (n + 1) (env.verify (savedText raw)).2).2 with
        | nil =>
          rw [hrest] at ha
          simp at ha
        | cons b bs =>
          rw [hrest] at ha
          rw [List.dropLast_cons₂] at ha
          rcases List.mem_cons.mp ha with h | h
          · exact ⟨(env.verify (savedText raw)).2, h⟩
          · have := ih (n + 1) (env.verify (savedText raw)).2 a
            rw [hrest] at this
            exact this h

theorem loopGo_exhausted_iff (env : RunEnv) :
    ∀ fuel n e, (attemptLoopGo env fuel n e).1 = .exhausted ↔
      ((attemptLoopGo env fuel n e).2.length = fuel ∧
        ∀ a ∈ (attemptLoopGo env fuel n e).2, ∃ m, a = .verified false m) := by
  intro fuel
  induction fuel with
  | zero =>
    intro n e
    simp [attemptLoopGo]
  | succ k ih =>
    intro n e
    cases hg : env.gen n e with
    | raised m =>
      rw [loopGo_step_raised env k n e m hg]
      simp
    | ok raw =>
      cases hv : (env.verify (savedText raw)).1 with
      | true =>
        rw [loopGo_step_pass env k n e raw hg hv]
        simp
      | false =>
        rw [loopGo_step_fail env k n e raw hg hv]
        have ihx := ih (n + 1) (env.verify (savedText raw)).2
        constructor
        · intro h
          obtain ⟨h1, h2⟩ := ihx.mp h
          refine ⟨by simp [h1], ?_⟩
          intro a ha
          rcases List.mem_cons.mp ha with h3 | h3
          · exact ⟨(env.verify (savedText raw)).2, h3⟩
          · exact h2 a h3
        · intro ⟨h1, h2⟩
          apply ihx.mpr
          refine ⟨by simpa using h1, ?_⟩
          intro a ha
          exact h2 a (List.mem_cons_of_mem _ ha)

theorem loopGo_success_iff (env : RunEnv) :
    ∀ fuel n e, (attemptLoopGo env fuel n e).1 = .success ↔
      ∃ m, (attemptLoopGo env fuel n e).2.getLast? = some (.verified true m) := by
  intro fuel
  induction fuel with
  | zero =>
    intro n e
    simp [attemptLoopGo]
  | succ k ih =>
    intro n e
    cases hg : env.gen n e with
    | raised m =>
      rw [loopGo_step_raised env k n e m hg]
      simp
    | ok raw =>
      cases hv : (env.verify (savedText raw)).1 with
      | true =>
        rw [loopGo_step_pass env k n e raw hg hv]
        simp
      | false =>
        rw [loopGo_step_fail env k n e raw hg hv]
        have ihx := ih (n + 1) (env.verify (savedText raw)).2
        cases hrest : (attemptLoopGo env k (n + 1) (env.verify (savedText raw)).2).2 with
        | nil =>
          rw [hrest] at ihx
          simp only [hrest, List.getLast?_singleton]
          constructor
          · intro h
            exact absurd (ihx.mp h) (by simp)
          · intro ⟨m, hm⟩
            cases hm
        | cons b bs =>
          rw [hrest] at ihx
          simp only [hrest, List.getLast?_cons_cons]
          exact ihx

theorem loopGo_spawn_irrel (env : RunEnv) (s2 : Except Unit Int) :
    ∀ fuel n e, attemptLoopGo (RunEnv.mk env.gen env.verify s2) fuel n e
      = attemptLoopGo env fuel n e := by
  intro fuel
  induction fuel with
  | zero => intro n e; rfl
  | succ k ih =>
    intro n e
    cases hg : env.gen n e with
    | raised m =>
      rw [loopGo_step_raised env k n e m hg,
        loopGo_step_raised (RunEnv.mk env.gen env.verify s2) k n e m hg]
    | ok raw =>
      cases hv : (env.verify (savedText raw)).1 with
      | true =>
        rw [loopGo_step_pass env k n e raw hg hv,
          loopGo_step_pass (RunEnv.mk env.gen env.verify s2) k n e raw hg hv]
      | false =>
        rw [loopGo_step_fail env k n e raw hg hv,
          loopGo_step_fail (RunEnv.mk env.gen env.verify s2) k n e raw hg hv,
          ih (n + 1) (env.verify (savedText raw)).2]

theorem runAgent_proj (env : RunEnv) :
    (runAgent env).outcome = (attemptLoopGo env 3 1 "").1
    ∧ (runAgent env).attempts = (attemptLoopGo env 3 1 "").2 := by
  unfold runAgent
  by_cases h : (attemptLoopGo env 3 1 "").1 = .success
  · simp [h]
  · simp [h]

/-! ### Claims about the Retry Orchestrator and the process -/

/-- A run environment whose first generation request raises a completion-service
exception while a later attempt, were it reached, would generate code that
verifies; used to exercise the uncaught-generation-error path. -/
def envC1 : RunEnv :=
  ⟨fun n _ => if n = 1 then .raised "boom" else .ok "code",
    fun _ => (true, "ok"), .ok 0⟩

/-- Claim C1 counterexample: when the generation call of attempt 1 raises, the
run aborts at once with that exception — the failure is not recorded as an
attempt diagnostic that the loop then retries past, even though two attempts
remain and the next attempt would have verified successfully. -/
theorem C1_counterexample :
    (runAgent envC1).outcome = .aborted "boom"
    ∧ (runAgent envC1).attempts = [.genRaised "boom"] := by
  constructor
  · rfl
  · rfl

/-- Claim C1 amended: a `GenerationServiceError` raised by the Generation
Client is not attempt-local: `ask_llm_for_parser` is called outside any
`try` block, so the exception propagates and aborts the whole run immediately,
with that single generation request as the only attempt record. -/
theorem C1_amended_abort (env : RunEnv) (m : String)
    (h : env.gen 1 "" = .raised m) :
    (runAgent env).outcome = .aborted m
    ∧ (runAgent env).attempts = [.genRaised m] := by
  have hl : attemptLoopGo env 3 1 "" = (.aborted m, [.genRaised m]) :=
    loopGo_step_raised env 2 1 "" m h
  unfold runAgent
  rw [hl]
  simp

/-- Claim C1 witness: the amended behaviour observed at the concrete
environment `envC1`. -/
theorem C1_witness : (runAgent envC1).outcome = .aborted "boom" :=
  (C1_amended_abort envC1 "boom" rfl).1

/-- Claim C3: the Orchestrator performs at most 3 attempts (each attempt record
is exactly one generation request), every attempt before the last is a failed
verification (so nothing follows a success), the run reaches `Exhausted`
exactly when all 3 attempts ran and every verification failed, and it reaches
`Success` exactly when the final recorded attempt is a successful
verification. -/
theorem C3_retry_bound (env : RunEnv) :
    (runAgent env).attempts.length ≤ 3
    ∧ (∀ a ∈ (runAgent env).attempts.dropLast, ∃ m, a = .verified false m)
    ∧ ((runAgent env).outcome = .exhausted ↔
        ((runAgent env).attempts.length = 3 ∧
          ∀ a ∈ (runAgent env).attempts, ∃ m, a = .verified false m))
    ∧ ((runAgent env).outcome = .success ↔
        ∃ m, (runAgent env).attempts.getLast? = some (.verified true m)) := by
  obtain ⟨ho, ha⟩ := runAgent_proj env
  rw [ho, ha]
  exact ⟨loopGo_length_le env 3 1 "", loopGo_earlier_failed env 3 1 "",
    loopGo_exhausted_iff env 3 1 "", loopGo_success_iff env 3 1 ""⟩

/-- A run environment in which every generated candidate fails verification. -/
def envAllFail : RunEnv :=
  ⟨fun _ _ => .ok "bad code", fun _ => (false, "mismatch"), .ok 0⟩

/-- Claim C3 witness: at the always-failing environment the bound is observed
concretely — exactly 3 attempts and the `Exhausted` outcome. -/
theorem C3_witness : (runAgent envAllFail).attempts.length = 3 :=
  ((C3_retry_bound envAllFail).2.2.1.mp (by rfl)).1

/-- A run environment in which the first candidate verifies successfully. -/
def envAllPass : RunEnv :=
  ⟨fun _ _ => .ok "good code", fun _ => (true, "match"), .ok 5⟩

/-- Claim C8: after a successful verification the pytest subprocess is invoked
exactly once and its exit code is reported; without success it is never
invoked; and neither the outcome nor the attempt history depends on the pytest
subprocess in any way (replacing its behaviour changes neither). -/
theorem C8_pytest_hook (env : RunEnv) (s2 : Except Unit Int) :
    ((runAgent env).outcome = .success →
      (runAgent env).pytestCalls = 1
      ∧ (runAgent env).pytestReported = some (run_pytest env.pytestSpawn))
    ∧ ((runAgent env).outcome ≠ .success → (runAgent env).pytestCalls = 0)
    ∧ (runAgent (RunEnv.mk env.gen env.verify s2)).outcome = (runAgent env).outcome
    ∧ (runAgent (RunEnv.mk env.gen env.verify s2)).attempts = (runAgent env).attempts := by
  have hirr := loopGo_spawn_irrel env s2 3 1 ""
  obtain ⟨ho, ha⟩ := runAgent_proj env
  obtain ⟨ho2, ha2⟩ := runAgent_proj (RunEnv.mk env.gen env.verify s2)
  refine ⟨?_, ?_, ?_, ?_⟩
  · intro h
    rw [ho] at h
    unfold runAgent
    rw [if_pos h]
    exact ⟨rfl, rfl⟩
  · intro h
    rw [ho] at h
    unfold runAgent
    rw [if_neg h]
  · rw [ho2, ho, hirr]
  · rw [ha2, ha, hirr]

/-- Claim C8 witness: at the always-passing environment pytest runs once and
its exit code 5 is reported, and swapping the subprocess result leaves the
outcome unchanged. -/
theorem C8_witness :
    (runAgent envAllPass).pytestCalls = 1
    ∧ (runAgent (RunEnv.mk envAllPass.gen envAllPass.verify (.error ()))).outcome
        = (runAgent envAllPass).outcome :=
  ⟨((C8_pytest_hook envAllPass (.ok 0)).1 (by rfl)).1,
    (C8_pytest_hook envAllPass (.error ())).2.2.1⟩

/-- A process environment whose credential variable is set to the empty string,
with valid fixtures and an always-passing run environment behind it. -/
def procC6 : ProcEnv :=
  ⟨some "", ["a.pdf"], ["a.csv"], envAllPass⟩

/-- A process environment with a non-empty credential and valid fixtures. -/
def procC6b : ProcEnv :=
  ⟨some "k", ["a.pdf"], ["a.csv"], envAllPass⟩

/-- Claim C6 counterexample: with the credential variable present in the
environment but set to the empty string, the process still terminates fatally
with exit code 1 before any fixture lookup — so "present implies startup
proceeds" fails as stated (Python truthiness also rejects an empty value). -/
theorem C6_counterexample :
    procC6.grokApiKey.isSome = true
    ∧ (runProcess "icici" procC6).fatalExit = some (1, missingKeyMsg)
    ∧ (runProcess "icici" procC6).fixtureLookups = 0 := by
  exact ⟨rfl, rfl, rfl⟩

/-- Claim C6 amended: when the credential is absent from the environment or
set to the empty string, the process terminates with exit code 1 and the
explicit diagnostic before any fixture lookup or attempt runs; when it is
present and non-empty, startup proceeds to the fixture lookup. -/
theorem C6_amended_startup (target : String) (p : ProcEnv) :
    ((p.grokApiKey = none ∨ p.grokApiKey = some "") →
      (runProcess target p).fatalExit = some (1, missingKeyMsg)
      ∧ (runProcess target p).fixtureLookups = 0
      ∧ (runProcess target p).runTrace = none)
    ∧ (∀ s, p.grokApiKey = some s → s ≠ "" →
        (runProcess target p).fixtureLookups = 1) := by
  constructor
  · intro h
    have ht : pyTruthy p.grokApiKey = false := by
      rcases h with h | h
      · rw [h]; rfl
      · rw [h]
        simp [pyTruthy]
    unfold runProcess
    rw [ht]
    exact ⟨rfl, rfl, rfl⟩
  · intro s hs hne
    have ht : pyTruthy p.grokApiKey = true := by
      rw [hs]
      simp [pyTruthy, hne]
    unfold runProcess
    rw [ht]
    simp only [Bool.true_eq_false]
    rw [if_neg (by simp)]
    cases hf : find_data_paths target p.pdfFiles p.csvFiles with
    | error e => simp [hf]
    | ok pc => simp [hf]

/-- Claim C6 witness: the amended behaviour at concrete environments — fatal
exit with no fixture lookup on an empty credential, and a performed fixture
lookup when a non-empty credential is present. -/
theorem C6_witness :
    ((runProcess "icici" procC6).fatalExit = some (1, missingKeyMsg)
      ∧ (runProcess "icici" procC6).fixtureLookups = 0
      ∧ (runProcess "icici" procC6).runTrace = none)
    ∧ (runProcess "icici" procC6b).fixtureLookups = 1 :=
  ⟨(C6_amended_startup "icici" procC6).1 (Or.inr rfl),
    (C6_amended_startup "icici" procC6b).2 "k" rfl (by simp)⟩

/-! ### Lemmas about the Code Extractor -/

theorem take3_ne_fence {c : Char} (hc : c ≠ btick) (l : List Char) :
    ¬ (c :: l).take 3 = fenceTag := by
  intro h
  rw [List.take_succ_cons] at h
  unfold fenceTag at h
  injection h with h1 _
  exact hc h1

theorem takeUntilFence_clean (post : List Char) :
    ∀ i : List Char, (∀ c ∈ i, c ≠ btick) →
      takeUntilFence (i ++ (fenceTag ++ post)) = some i := by
  intro i
  induction i with
  | nil =>
    intro _
    show takeUntilFence (btick :: btick :: btick :: post) = some []
    unfold takeUntilFence
    rw [if_pos]
    rfl
  | cons c rest ih =>
    intro h
    have hc : c ≠ btick := h c (List.mem_cons_self c rest)
    have hrest : ∀ x ∈ rest, x ≠ btick :=
      fun x hx => h x (List.mem_cons_of_mem c hx)
    show takeUntilFence (c :: (rest ++ (fenceTag ++ post))) = some (c :: rest)
    unfold takeUntilFence
    rw [if_neg (take3_ne_fence hc _)]
    rw [ih hrest]

theorem matchOpenAt_none {c : Char} (hc : c ≠ btick) (l : List Char) :
    matchOpenAt (c :: l) = none := by
  unfold matchOpenAt
  rw [if_neg (take3_ne_fence hc l)]

theorem findBlock_cons_eq (c : Char) (rest : List Char) :
    findBlock (c :: rest) =
      match matchOpenAt (c :: rest) with
      | some afterOpen =>
        (match takeUntilFence afterOpen with
          | some interior => some interior
          | none => findBlock rest)
      | none => findBlock rest := by
  simp only [findBlock]

theorem findBlock_skip (t : List Char) :
    ∀ pre : List Char, (∀ c ∈ pre, c ≠ btick) →
      findBlock (pre ++ t) = findBlock t := by
  intro pre
  induction pre with
  | nil => intro _; rfl
  | cons c rest ih =>
    intro h
    have hc : c ≠ btick := h c (List.mem_cons_self c rest)
    have hrest : ∀ x ∈ rest, x ≠ btick :=
      fun x hx => h x (List.mem_cons_of_mem c hx)
    show findBlock (c :: (rest ++ t)) = findBlock t
    rw [findBlock_cons_eq, matchOpenAt_none hc]
    exact ih hrest

theorem findBlock_none : ∀ raw : List Char, (∀ c ∈ raw, c ≠ btick) →
    findBlock raw = none := by
  intro raw
  induction raw with
  | nil => intro _; rfl
  | cons c rest ih =>
    intro h
    unfold findBlock
    rw [matchOpenAt_none (h c (List.mem_cons_self c rest))]
    exact ih (fun x hx => h x (List.mem_cons_of_mem c hx))

/-- A raw response shaped as preamble, an opening fence with optional language
tag, an interior, a closing fence, and a trailing remainder, with explicit
right-nested concatenation. -/
def fencedDoc (pre tag i post : List Char) : List Char :=
  pre ++ (fenceTag ++ (tag ++ ('\n' :: (i ++ (fenceTag ++ post)))))

theorem findBlock_at_open (tag i post : List Char)
    (htag : tag = [] ∨ tag = pythonTag)
    (hi : ∀ c ∈ i, c ≠ btick) :
    findBlock (fenceTag ++ (tag ++ ('\n' :: (i ++ (fenceTag ++ post)))))
      = some i := by
  have hopen : matchOpenAt (fenceTag ++ (tag ++ ('\n' :: (i ++ (fenceTag ++ post)))))
      = some (i ++ (fenceTag ++ post)) := by
    rcases htag with h | h
    · subst h
      rfl
    · subst h
      rfl
  show findBlock (btick :: (btick :: btick :: (tag ++ ('\n' :: (i ++ (fenceTag ++ post))))))
    = some i
  rw [findBlock_cons_eq]
  have hopen' : matchOpenAt (btick :: (btick :: btick :: (tag ++ ('\n' :: (i ++ (fenceTag ++ post))))))
      = some (i ++ (fenceTag ++ post)) := hopen
  rw [hopen']
  simp only [takeUntilFence_clean post i hi]

/-! ### Claims about the Code Extractor -/

/-- Claim C4 counterexample: for the raw response whose fenced interior is
`"  x\n"`, the claim predicts the persisted text `"  x\n"` (interior verbatim,
only trailing whitespace trimmed, one newline appended), but `save_parser`
applies `str.strip()` and persists `"x\n"`, discarding the leading indentation
of the block. -/
theorem C4_counterexample :
    savedText "```\n  x\n```" = "x\n"
    ∧ ("x\n" : String) ≠ "  x\n" := by
  constructor
  · rfl
  · decide

/-- Claim C4 amended: the persisted text is the interior of the first fenced
code block with leading and trailing whitespace stripped (Python `str.strip()`,
not only trailing) and exactly one newline appended, internal newlines and
indentation otherwise verbatim; raw text without a fence is persisted
unchanged apart from the same leading/trailing normalization.  Stated for
responses whose preamble and interior contain no backtick, which makes the
shown block the first one. -/
theorem C4_amended_extract (pre tag i post : List Char)
    (hpre : ∀ c ∈ pre, c ≠ btick) (hi : ∀ c ∈ i, c ≠ btick)
    (htag : tag = [] ∨ tag = pythonTag) :
    savedText (String.mk (fencedDoc pre tag i post))
      = pyStrip (String.mk i) ++ "\n"
    ∧ ∀ raw : List Char, (∀ c ∈ raw, c ≠ btick) →
        savedText (String.mk raw) = pyStrip (String.mk raw) ++ "\n" := by
  constructor
  · have hfb : findBlock (fencedDoc pre tag i post) = some i := by
      unfold fencedDoc
      rw [findBlock_skip _ pre hpre]
      exact findBlock_at_open tag i post htag hi
    unfold savedText extract_code
    rw [show (String.mk (fencedDoc pre tag i post)).data = fencedDoc pre tag i post from rfl]
    rw [hfb]
  · intro raw hraw
    unfold savedText extract_code
    rw [show (String.mk raw).data = raw from rfl]
    rw [findBlock_none raw hraw]

/-- Claim C4 witness: the amended extraction law observed on a concrete
response with a python-tagged fence and an indented interior. -/
theorem C4_witness :
    savedText (String.mk (fencedDoc "Sure: ".data pythonTag "  import pandas\n".data
        " done".data))
      = pyStrip (String.mk "  import pandas\n".data) ++ "\n" :=
  (C4_amended_extract "Sure: ".data pythonTag "  import pandas\n".data " done".data
    (by decide) (by decide) (Or.inr rfl)).1

/-! ### Concrete witnesses for the Verifier and Fixture Locator claims -/

/-- A small concrete expected table. -/
def dfW : DataFrame :=
  ⟨["Date", "Narration", "Debit"],
    [[.pyStr "01-08-2024", .pyStr "Salary Credit", .pyFloat 1935]]⟩

/-- A candidate module whose entry point returns `dfW` for any path. -/
def modW : PyModule := ⟨some (fun _ => .ok dfW)⟩

/-- An interpreter environment where import and CSV read both succeed. -/
def envW2 : PyEnv := ⟨fun _ => .ok modW, fun _ => .ok dfW⟩

/-- Claim C2 witness: the exact-match law observed at a concrete module and
fixture whose produced and expected tables coincide. -/
theorem C2_witness :
    (testParser envW2 "icici_parser.py" "icici.pdf" "icici.csv").1 = true ↔ dfW = dfW :=
  (C2_exact_match envW2 "icici_parser.py" "icici.pdf" "icici.csv" modW
    (fun _ => .ok dfW) dfW dfW rfl rfl rfl rfl).1

/-- An interpreter environment whose module import raises at load time. -/
def envW5 : PyEnv :=
  ⟨fun _ => .error "SyntaxError: invalid syntax", fun _ => .ok dfW⟩

/-- Claim C5 witness: a load-time exception at a concrete environment yields
the failure pair whose diagnostic carries the formatted trace. -/
theorem C5_witness :
    (testParser envW5 "icici_parser.py" "icici.pdf" "icici.csv").1 = false
    ∧ ∃ e, (testParser envW5 "icici_parser.py" "icici.pdf" "icici.csv").2 =
        "Exception while running parse(): " ++ e ++ "\n" ++ format_exc e :=
  C5_never_raises envW5 "icici_parser.py" "icici.pdf" "icici.csv"
    (Or.inl ⟨"SyntaxError: invalid syntax", rfl⟩)

/-- Claim C7 witness: the locator behaviour at a concrete valid fixture
directory and at a concrete directory missing the CSV. -/
theorem C7_witness :
    (∃ p ps c cs, ["icici sample.pdf"] = p :: ps ∧ ["icici sample.csv"] = c :: cs ∧
      find_data_paths "icici" ["icici sample.pdf"] ["icici sample.csv"] = .ok (p, c))
    ∧ (∃ e, find_data_paths "icici" ["icici sample.pdf"] [] = .error e) :=
  ⟨(C7_fixture_locator "icici" ["icici sample.pdf"] ["icici sample.csv"]).1
      (List.cons_ne_nil _ _) (List.cons_ne_nil _ _),
    (C7_fixture_locator "icici" ["icici sample.pdf"] []).2 (Or.inr rfl)⟩

/-- An interpreter environment whose module loads but defines no `parse`. -/
def envW10 : PyEnv := ⟨fun _ => .ok ⟨none⟩, fun _ => .ok dfW⟩

/-- Claim C10 witness: a module without a callable `parse` entry point at a
concrete environment produces the ordinary failure pair. -/
theorem C10_witness :
    testParser envW10 "icici_parser.py" "icici.pdf" "icici.csv"
      = (false, excDiag noParseAttr) :=
  (C10_contract_violation envW10 "icici_parser.py" "icici.pdf" "icici.csv").1
    ⟨none⟩ rfl rfl

end BankAgent
